import Mathlib

/-!
Shallow embedding of the TelePrompt Pro multi-framework model loader
(`ml-models/scripts/model_loader.py`) together with proofs about its
load/predict/preprocess/postprocess/unload contract.

Conventions of the embedding:

* A tensor is a shape (list of dimension sizes) together with flat row-major
  data; elements are rationals.  The source only compares, shifts and scales
  numeric values exactly (`>`, `-`, `/`), so no claim below depends on
  floating-point rounding.
* The filesystem and the framework runtimes form an explicit environment
  `Env`: which configuration files exist and parse, which artifact files
  exist, whether a framework-native load succeeds on a given artifact, and
  which optional runtimes are importable.
* The loader's Python `dict` state (`self.loaded_models`, `self.configs`) is
  modelled as association lists.  A cached value of `none` models Python's
  `None` stored in `loaded_models` (the checkpoint/onnx adapters return
  `None` when their artifact file is absent).
* Disk accesses (configuration read, artifact existence check, artifact
  read) are recorded as an explicit event trace so that "no further disk
  I/O" is a statement about the trace.
* Every Python exception that the loader can raise is a constructor of
  `Err`; functions that can raise return `Except Err _`.
-/

namespace MLoader

/-- Dense numeric array: a declared shape and flat row-major data. -/
structure Tensor where
  shape : List Nat
  data : List ℚ
  deriving Repr, DecidableEq

/-- Exceptions the loader can raise, one constructor per `raise` site (plus
the uncaught exceptions that can escape the adapters). -/
inductive Err where
  /-- `FileNotFoundError` re-raised when `model_config.json` is absent. -/
  | configurationNotFound (name : String)
  /-- `ValueError(f"Unsupported framework: ...")`. -/
  | unsupportedFramework (framework : String)
  /-- `KeyError` from `config["model_files"]` when the key is absent. -/
  | keyErrorModelFiles
  /-- `ImportError` re-raised when the declared runtime is not installed. -/
  | runtimeUnavailable (runtime : String)
  /-- Uncaught exception escaping `torch.load` / `ort.InferenceSession`. -/
  | nativeLoadError
  /-- `IndexError` escaping `_create_placeholder_model`
  (`output_shape[1:]` empty makes `output_shape[-1]` raise), or a graph
  construction failure for a non-rank-3 per-sample input shape. -/
  | placeholderCreationFailed
  /-- `ValueError(f"Model ... not loaded")`. -/
  | modelNotLoaded (name : String)
  /-- NumPy broadcast failure in `(input_data - mean) / std`. -/
  | broadcastError
  /-- Exception escaping the framework-native `model.predict` call. -/
  | frameworkPredictError
  deriving Repr, DecidableEq

/-- Projection of the descriptor's optional `"preprocessing"` object onto the
keys the loader reads. -/
structure Preprocessing where
  resize : Option (List Nat)
  normalize : Bool
  mean : Option (List ℚ)
  std : Option (List ℚ)
  deriving Repr, DecidableEq

/-- The `"preprocessing"` default `{}`: no keys present, `normalize` falsy. -/
def emptyPreprocessing : Preprocessing :=
  { resize := none, normalize := false, mean := none, std := none }

/-- Projection of the descriptor's free-form `"hyperparameters"` object onto
the single key the loader reads. -/
structure Hyperparameters where
  segmentation_threshold : Option ℚ
  deriving Repr, DecidableEq

/-- Parsed `model_config.json`, projected onto the keys the loader reads.
`isEmpty` records the Python truthiness of the whole parsed dict (`true` iff
the JSON object has no keys at all), which `preprocess_input` /
`postprocess_output` test with `if not config`. -/
structure Config where
  isEmpty : Bool
  framework : Option String
  model_files : Option (List (String × String))
  input_shape : Option (List Nat)
  output_shape : Option (List Nat)
  preprocessing : Option Preprocessing
  hyperparameters : Option Hyperparameters
  deriving Repr, DecidableEq

/-- The empty dict `{}` that `get_model_info` returns for an unknown name. -/
def emptyConfig : Config :=
  { isEmpty := true, framework := none, model_files := none,
    input_shape := none, output_shape := none, preprocessing := none,
    hyperparameters := none }

/-- A non-`None` runtime object that can end up cached in `loaded_models`. -/
inductive ModelHandle where
  /-- `tf.keras.models.load_model` result for a genuine artifact. -/
  | tfModel (model_name file : String)
  /-- `torch.load` result, set to eval mode. -/
  | torchModel (model_name file : String)
  /-- `onnxruntime.InferenceSession` over the artifact. -/
  | onnxSession (model_name file : String)
  /-- Placeholder from `_create_placeholder_model`: a single `Conv2D`
  (`padding="same"`, sigmoid) with `outChannels = output_shape[-1]` filters on
  an input of per-sample shape `inputShape = input_shape[1:]`. -/
  | placeholder (inputShape : List Nat) (outChannels : Nat)
  deriving Repr, DecidableEq

/-- One recorded disk access. -/
inductive DiskEvent where
  /-- Attempted `open`/`json.load` of `<model>/model_config.json`. -/
  | configRead (model_name : String)
  /-- `os.path.exists` on an artifact file. -/
  | artifactStat (model_name file : String)
  /-- Framework-native read of an artifact file. -/
  | artifactRead (model_name file : String)
  deriving Repr, DecidableEq

/-- The mutable state of a `ModelLoader` instance: `self.loaded_models` and
`self.configs`.  A `loaded_models` value of `none` is Python's `None`. -/
structure LoaderState where
  loaded_models : List (String × Option ModelHandle)
  configs : List (String × Config)
  deriving Repr, DecidableEq

/-- The loader state right after `__init__`. -/
def initialState : LoaderState := { loaded_models := [], configs := [] }

/-- The world outside the loader: disk contents and installed runtimes. -/
structure Env where
  /-- Parsed content of `<models_dir>/<name>/model_config.json`, when the
  file exists and parses. -/
  configOf : String → Option Config
  /-- Whether artifact `file` exists inside model directory `name`. -/
  artifactExists : String → String → Bool
  /-- Whether the framework-native load of an existing artifact succeeds. -/
  nativeLoadOk : String → String → Bool
  /-- Whether `import torch` succeeds. -/
  torchInstalled : Bool
  /-- Whether `import onnxruntime` succeeds. -/
  onnxInstalled : Bool

deriving instance DecidableEq for Except

/-- Result of one `load_model` call: the updated state, the disk accesses it
performed, and the returned value (the cached object, possibly `None`) or the
raised exception. -/
structure LoadResult where
  state : LoaderState
  events : List DiskEvent
  result : Except Err (Option ModelHandle)
  deriving Repr, DecidableEq

/-- First-match lookup in an association list (Python `dict` read). -/
def alookup {α : Type} : List (String × α) → String → Option α
  | [], _ => none
  | (k, v) :: rest, key => if k = key then some v else alookup rest key

/-- Overwrite-or-append (Python `dict` assignment). -/
def upsert {α : Type} : List (String × α) → String → α → List (String × α)
  | [], key, v => [(key, v)]
  | (k, w) :: rest, key, v =>
      if k = key then (key, v) :: rest else (k, w) :: upsert rest key v

/-- Key removal (Python `del d[key]`). -/
def eraseKey {α : Type} (l : List (String × α)) (key : String) :
    List (String × α) :=
  l.filter (fun p => p.1 != key)

/-- Python `d.get(role, dflt)` on the `model_files` mapping. -/
def mfGet (mf : List (String × String)) (role dflt : String) : String :=
  (alookup mf role).getD dflt

/-- `_create_placeholder_model`: strips the batch dimension from the declared
shapes (defaults `[1,224,224,3]`), then builds
`Conv2D(output_shape[-1], (3,3), padding="same", activation="sigmoid")` over
`Input(shape=input_shape[1:])`.  Returns `none` where the Python raises:
`output_shape[-1]` on an empty stripped list is an `IndexError`, and `Conv2D`
rejects a per-sample input of rank other than 3 at graph-construction time.
(Degenerate channel counts such as `0` filters are not modelled; no claim
touches them.) -/
def createPlaceholderModel (cfg : Config) : Option ModelHandle :=
  let inS := (cfg.input_shape.getD [1, 224, 224, 3]).drop 1
  let outS := (cfg.output_shape.getD [1, 224, 224, 3]).drop 1
  match outS.getLast? with
  | none => none
  | some c => if inS.length = 3 then some (.placeholder inS c) else none

/-- `_load_tensorflow_model`.  The `device` argument only mutates the global
device configuration (no disk access, no effect on the returned handle) and
is not modelled.  A missing artifact falls back to the placeholder; an
artifact whose native load raises is caught by `except Exception` and also
falls back to the placeholder.  If building the placeholder itself raises,
the `except` handler's second `_create_placeholder_model` call raises the
same way and the exception escapes. -/
def loadTensorflowModel (env : Env) (model_name : String) (cfg : Config) :
    Except Err (ModelHandle × List DiskEvent) :=
  match cfg.model_files with
  | none => .error .keyErrorModelFiles
  | some mf =>
    let file := mfGet mf "full_model" "model.h5"
    if env.artifactExists model_name file then
      if env.nativeLoadOk model_name file then
        .ok (.tfModel model_name file,
             [.artifactStat model_name file, .artifactRead model_name file])
      else
        match createPlaceholderModel cfg with
        | some p =>
            .ok (p, [.artifactStat model_name file,
                     .artifactRead model_name file])
        | none => .error .placeholderCreationFailed
    else
      match createPlaceholderModel cfg with
      | some p => .ok (p, [.artifactStat model_name file])
      | none => .error .placeholderCreationFailed

/-- `_load_pytorch_model`.  Only `ImportError` is caught; a missing artifact
returns `None` (no placeholder); `torch.load` failures escape.  `device` is
only passed to `torch.load` as `map_location` and does not affect anything
observable here. -/
def loadPytorchModel (env : Env) (model_name : String) (cfg : Config) :
    Except Err (Option ModelHandle × List DiskEvent) :=
  if env.torchInstalled then
    match cfg.model_files with
    | none => .error .keyErrorModelFiles
    | some mf =>
      let file := mfGet mf "weights" "model.pth"
      if env.artifactExists model_name file then
        if env.nativeLoadOk model_name file then
          .ok (some (.torchModel model_name file),
               [.artifactStat model_name file, .artifactRead model_name file])
        else .error .nativeLoadError
      else .ok (none, [.artifactStat model_name file])
  else .error (.runtimeUnavailable "pytorch")

/-- `_load_onnx_model`.  Same shape as the checkpoint adapter; takes no
`device` argument. -/
def loadOnnxModel (env : Env) (model_name : String) (cfg : Config) :
    Except Err (Option ModelHandle × List DiskEvent) :=
  if env.onnxInstalled then
    match cfg.model_files with
    | none => .error .keyErrorModelFiles
    | some mf =>
      let file := mfGet mf "onnx" "model.onnx"
      if env.artifactExists model_name file then
        if env.nativeLoadOk model_name file then
          .ok (some (.onnxSession model_name file),
               [.artifactStat model_name file, .artifactRead model_name file])
        else .error .nativeLoadError
      else .ok (none, [.artifactStat model_name file])
  else .error (.runtimeUnavailable "onnx")

/-- `load_model`.  Cache membership (`model_name in self.loaded_models`) is
dict-key membership, so a cached `None` short-circuits too.  Note that
`self.configs[model_name] = config` happens before framework dispatch, so the
descriptor is stored even when dispatch subsequently raises. -/
def load_model (env : Env) (st : LoaderState) (model_name _device : String) :
    LoadResult :=
  match alookup st.loaded_models model_name with
  | some hdl => { state := st, events := [], result := .ok hdl }
  | none =>
    match env.configOf model_name with
    | none =>
        { state := st, events := [.configRead model_name],
          result := .error (.configurationNotFound model_name) }
    | some cfg =>
      let st1 : LoaderState :=
        { st with configs := upsert st.configs model_name cfg }
      let fw := cfg.framework.getD "tensorflow"
      if fw = "tensorflow" then
        match loadTensorflowModel env model_name cfg with
        | .error e =>
            { state := st1, events := [.configRead model_name],
              result := .error e }
        | .ok (hdl, evs) =>
            let st2 : LoaderState :=
              { st1 with
                loaded_models := upsert st1.loaded_models model_name (some hdl) }
            { state := st2, events := .configRead model_name :: evs,
              result := .ok (some hdl) }
      else if fw = "pytorch" then
        match loadPytorchModel env model_name cfg with
        | .error e =>
            { state := st1, events := [.configRead model_name],
              result := .error e }
        | .ok (hdl?, evs) =>
            let st2 : LoaderState :=
              { st1 with
                loaded_models := upsert st1.loaded_models model_name hdl? }
            { state := st2, events := .configRead model_name :: evs,
              result := .ok hdl? }
      else if fw = "onnx" then
        match loadOnnxModel env model_name cfg with
        | .error e =>
            { state := st1, events := [.configRead model_name],
              result := .error e }
        | .ok (hdl?, evs) =>
            let st2 : LoaderState :=
              { st1 with
                loaded_models := upsert st1.loaded_models model_name hdl? }
            { state := st2, events := .configRead model_name :: evs,
              result := .ok hdl? }
      else
        { state := st1, events := [.configRead model_name],
          result := .error (.unsupportedFramework fw) }

/-- Elementwise combination of a tensor with a 1-D vector broadcast along the
last axis, as NumPy does for `t - mean` and `t / std`: the vector's length
must equal the last dimension (or be 1).  Other broadcasts raise.  (Division
by zero is not claim-relevant and inherits `ℚ`'s `x / 0 = 0`.) -/
def broadcastLast (t : Tensor) (v : List ℚ) (f : ℚ → ℚ → ℚ) :
    Except Err Tensor :=
  let lastDim := t.shape.getLastD 0
  if v.length = lastDim then
    .ok { t with
          data := t.data.mapIdx (fun i x => f x (v.getD (i % lastDim) 0)) }
  else if v.length = 1 then
    .ok { t with data := t.data.map (fun x => f x (v.getD 0 0)) }
  else .error .broadcastError

/-- `preprocess_input`.  The `resize` branch in the source reads
`preprocessing["resize"]` into a local variable but the resize call itself is
commented out, so the tensor passes through that branch unchanged.  The
Python truthiness test `if not config` also rejects a stored empty dict. -/
def preprocess_input (st : LoaderState) (model_name : String)
    (input_data : Tensor) : Except Err Tensor :=
  match alookup st.configs model_name with
  | none => .error (.modelNotLoaded model_name)
  | some cfg =>
    if cfg.isEmpty then .error (.modelNotLoaded model_name)
    else
      let pre := cfg.preprocessing.getD emptyPreprocessing
      match
        (if pre.normalize then
          broadcastLast input_data (pre.mean.getD [1/2, 1/2, 1/2])
              (fun x m => x - m) >>= fun t1 =>
            broadcastLast t1 (pre.std.getD [1/2, 1/2, 1/2]) (fun x s => x / s)
        else .ok input_data) with
      | .error e => .error e
      | .ok t2 =>
          .ok (if t2.shape.length = 3 then { t2 with shape := 1 :: t2.shape }
               else t2)

/-- `postprocess_output`: strip a leading batch dimension of size 1 from a
4-D tensor, then binarize against `hyperparameters["segmentation_threshold"]`
when that key is present (`(output_data > threshold).astype(np.float32)`,
strict greater-than). -/
def postprocess_output (st : LoaderState) (model_name : String)
    (output_data : Tensor) : Except Err Tensor :=
  match alookup st.configs model_name with
  | none => .error (.modelNotLoaded model_name)
  | some cfg =>
    if cfg.isEmpty then .error (.modelNotLoaded model_name)
    else
      let t1 :=
        if output_data.shape.length = 4 ∧ output_data.shape.headD 0 = 1 then
          { output_data with shape := output_data.shape.drop 1 }
        else output_data
      match cfg.hyperparameters with
      | some hp =>
        match hp.segmentation_threshold with
        | some thr =>
            .ok { t1 with
                  data := t1.data.map (fun x => if thr < x then (1 : ℚ) else 0) }
        | none => .ok t1
      | none => .ok t1

/-- Invoking the placeholder handle: Keras checks the per-sample shape
against the declared `Input` spec and needs a batched rank-4 tensor; the
`Conv2D` with `padding="same"` keeps the spatial dimensions of the INPUT and
replaces the channel count with its filter count.  The sigmoid output values
come from untrained random weights; they are not claim-relevant and are
modelled as the in-range constant `1/2`. -/
def placeholderPredict (inputShape : List Nat) (outChannels : Nat)
    (t : Tensor) : Option Tensor :=
  if t.shape.length = 4 ∧ t.shape.drop 1 = inputShape then
    let outShape := t.shape.dropLast ++ [outChannels]
    some { shape := outShape, data := List.replicate outShape.prod (1/2) }
  else none

/-- `model.predict(input_data)`: the placeholder's behavior is fixed by its
construction; a genuine framework handle's behavior is external and supplied
as an oracle (`none` models an exception escaping the native call). -/
def handlePredict (evalNative : ModelHandle → Tensor → Option Tensor) :
    ModelHandle → Tensor → Option Tensor
  | .placeholder inS c, t => placeholderPredict inS c t
  | h, t => evalNative h t

/-- `predict`.  `model = self.loaded_models.get(name)` followed by the
truthiness test `if not model` raises both when the name is absent and when
the cached value is `None`. -/
def predict (evalNative : ModelHandle → Tensor → Option Tensor)
    (st : LoaderState) (model_name : String) (input_data : Tensor)
    (preprocess postprocess : Bool) : Except Err Tensor :=
  match alookup st.loaded_models model_name with
  | none => .error (.modelNotLoaded model_name)
  | some none => .error (.modelNotLoaded model_name)
  | some (some model) =>
    match
      (if preprocess then preprocess_input st model_name input_data
       else .ok input_data) with
    | .error e => .error e
    | .ok prepped =>
      match handlePredict evalNative model prepped with
      | none => .error .frameworkPredictError
      | some out =>
          if postprocess then postprocess_output st model_name out
          else .ok out

/-- `unload_model`: deletes the `loaded_models` entry when present (no-op
otherwise).  `self.configs` is untouched. -/
def unload_model (st : LoaderState) (model_name : String) : LoaderState :=
  if (alookup st.loaded_models model_name).isSome then
    { st with loaded_models := eraseKey st.loaded_models model_name }
  else st

/-- `get_model_info`: `self.configs.get(model_name, {})`. -/
def get_model_info (st : LoaderState) (model_name : String) : Config :=
  (alookup st.configs model_name).getD emptyConfig


/-! ### Association-list lemmas -/

theorem alookup_upsert_self {α : Type} (l : List (String × α)) (k : String)
    (v : α) : alookup (upsert l k v) k = some v := by
  induction l with
  | nil => simp [upsert, alookup]
  | cons p rest ih =>
    obtain ⟨a, b⟩ := p
    by_cases h : a = k
    · simp [upsert, h, alookup]
    · simp [upsert, h, alookup, ih]

theorem alookup_upsert_of_ne {α : Type} (l : List (String × α))
    (k k' : String) (v : α) (h : k' ≠ k) :
    alookup (upsert l k v) k' = alookup l k' := by
  induction l with
  | nil => simp [upsert, alookup, Ne.symm h]
  | cons p rest ih =>
    obtain ⟨a, b⟩ := p
    by_cases ha : a = k
    · subst ha
      simp [upsert, alookup, Ne.symm h]
    · simp [upsert, ha, alookup, ih]

theorem alookup_eraseKey_self {α : Type} (l : List (String × α)) (k : String) :
    alookup (eraseKey l k) k = none := by
  induction l with
  | nil => simp [eraseKey, alookup]
  | cons p rest ih =>
    obtain ⟨a, b⟩ := p
    by_cases ha : a = k
    · simpa [eraseKey, ha] using ih
    · simpa [eraseKey, alookup, ha] using ih

theorem alookup_eraseKey_of_ne {α : Type} (l : List (String × α))
    (k k' : String) (h : k' ≠ k) :
    alookup (eraseKey l k) k' = alookup l k' := by
  induction l with
  | nil => simp [eraseKey, alookup]
  | cons p rest ih =>
    obtain ⟨a, b⟩ := p
    simp only [eraseKey] at ih
    by_cases ha : a = k
    · subst ha
      simpa [eraseKey, alookup, Ne.symm h] using ih
    · simp [eraseKey, alookup, ha, ih]

/-! ### Structural lemmas about `load_model` -/

/-- A name already present in `loaded_models` short-circuits `load_model`:
the cached value is returned, no disk event happens, the state is unchanged,
whatever the device argument. -/
theorem load_model_cached (env : Env) (st : LoaderState)
    (model_name device : String) (hdl : Option ModelHandle)
    (h : alookup st.loaded_models model_name = some hdl) :
    load_model env st model_name device =
      { state := st, events := [], result := .ok hdl } := by
  unfold load_model
  simp [h]

/-- A `load_model` call that returns `.ok hdl` leaves `hdl` cached under the
requested name in the resulting state. -/
theorem load_model_ok_caches (env : Env) (st : LoaderState)
    (model_name device : String) (hdl : Option ModelHandle)
    (h : (load_model env st model_name device).result = .ok hdl) :
    alookup (load_model env st model_name device).state.loaded_models
      model_name = some hdl := by
  unfold load_model at h ⊢
  cases hc : alookup st.loaded_models model_name with
  | some h0 =>
    simp [hc] at h ⊢
    exact h
  | none =>
    cases hcfg : env.configOf model_name with
    | none => simp [hc, hcfg] at h
    | some cfg =>
      simp only [hc, hcfg] at h ⊢
      by_cases htf : cfg.framework.getD "tensorflow" = "tensorflow"
      · simp only [htf, if_true] at h ⊢
        cases hload : loadTensorflowModel env model_name cfg with
        | error e => simp [hload] at h
        | ok pr =>
          simp only [hload] at h ⊢
          obtain ⟨hdl2, evs⟩ := pr
          simp at h ⊢
          rw [← h]
          exact alookup_upsert_self _ _ _
      · by_cases hpt : cfg.framework.getD "tensorflow" = "pytorch"
        · simp only [htf, hpt, if_false, if_true] at h ⊢
          cases hload : loadPytorchModel env model_name cfg with
          | error e => simp [hload] at h
          | ok pr =>
            simp only [hload] at h ⊢
            obtain ⟨hdl2, evs⟩ := pr
            simp at h ⊢
            rw [← h]
            exact alookup_upsert_self _ _ _
        · by_cases honx : cfg.framework.getD "tensorflow" = "onnx"
          · simp only [htf, hpt, honx, if_false, if_true] at h ⊢
            cases hload : loadOnnxModel env model_name cfg with
            | error e => simp [hload] at h
            | ok pr =>
              simp only [hload] at h ⊢
              obtain ⟨hdl2, evs⟩ := pr
              simp at h ⊢
              rw [← h]
              exact alookup_upsert_self _ _ _
          · simp [htf, hpt, honx] at h


/-! ### Concrete fixtures used by witnesses and counterexamples -/

/-- Native-predict oracle standing for framework handles that always raise;
never consulted on the placeholder path. -/
def noNative : ModelHandle → Tensor → Option Tensor := fun _ _ => none

/-- Descriptor of a graph-model (tensorflow) model with `224×224×3` shapes
and no artifact roles declared (so the default `model.h5` is used). -/
def tfConfig : Config :=
  { isEmpty := false, framework := some "tensorflow", model_files := some [],
    input_shape := some [1, 224, 224, 3],
    output_shape := some [1, 224, 224, 3],
    preprocessing := none, hyperparameters := none }

/-- Environment where only model `"eye"` has a descriptor and no artifact
file exists anywhere. -/
def tfEnv : Env :=
  { configOf := fun n => if n = "eye" then some tfConfig else none,
    artifactExists := fun _ _ => false,
    nativeLoadOk := fun _ _ => true,
    torchInstalled := true, onnxInstalled := true }

/-- Checkpoint (pytorch) descriptor, same shapes. -/
def ptConfig : Config := { tfConfig with framework := some "pytorch" }

/-- Environment where only model `"m"` has a descriptor (pytorch), the torch
runtime is installed, and its artifact file is absent. -/
def ptEnv : Env :=
  { tfEnv with configOf := fun n => if n = "m" then some ptConfig else none }

/-- Graph-model descriptor whose `output_shape` is `[1]`, so
`output_shape[1:]` is empty and `output_shape[-1]` raises `IndexError`
inside `_create_placeholder_model`. -/
def degenerateConfig : Config := { tfConfig with output_shape := some [1] }

/-- Environment for the degenerate descriptor, artifact absent. -/
def degenerateEnv : Env :=
  { tfEnv with
    configOf := fun n => if n = "b" then some degenerateConfig else none }

/-- Descriptor declaring an unrecognized framework kind. -/
def unknownFwConfig : Config := { tfConfig with framework := some "caffe" }

/-- Environment for the unrecognized-framework descriptor. -/
def unknownFwEnv : Env :=
  { tfEnv with
    configOf := fun n => if n = "u" then some unknownFwConfig else none }

/-- Graph-model descriptor with `input_shape=[1,8,8,3]` and
`output_shape=[1,4,4,1]` (different spatial dimensions). -/
def smallConfig : Config :=
  { tfConfig with
    input_shape := some [1, 8, 8, 3]
    output_shape := some [1, 4, 4, 1] }

/-- Environment for the small-shape descriptor, artifact absent. -/
def smallEnv : Env :=
  { tfEnv with configOf := fun n => if n = "s" then some smallConfig else none }

/-- Descriptor with `hyperparameters.segmentation_threshold = 0.5`. -/
def thrConfig : Config :=
  { tfConfig with hyperparameters := some ⟨some (1/2)⟩ }

/-- Loader state whose `configs` holds `thrConfig` under `"t"`. -/
def thrState : LoaderState :=
  { loaded_models := [], configs := [("t", thrConfig)] }

/-- Preprocessing block declaring only `resize: [1, 1]`. -/
def resizeOnlyPre : Preprocessing :=
  { resize := some [1, 1], normalize := false, mean := none, std := none }

/-- Descriptor whose `preprocessing.resize` targets `[1, 1]`. -/
def resizeConfig : Config :=
  { tfConfig with preprocessing := some resizeOnlyPre }

/-- Loader state whose `configs` holds `resizeConfig` under `"r"`. -/
def resizeState : LoaderState :=
  { loaded_models := [], configs := [("r", resizeConfig)] }

/-! ### C1 -/

/-- C1: `load_model` is idempotent.  After a first call that returns a value
(which is then cached under the name), a second call — with any device
argument — returns the very same cached value, performs no disk access at
all, and leaves the loader state unchanged. -/
theorem load_model_idempotent (env : Env) (st : LoaderState)
    (model_name d1 d2 : String) (hdl : Option ModelHandle)
    (h : (load_model env st model_name d1).result = .ok hdl) :
    load_model env (load_model env st model_name d1).state model_name d2 =
      { state := (load_model env st model_name d1).state, events := [],
        result := .ok hdl } :=
  load_model_cached env _ model_name d2 hdl
    (load_model_ok_caches env st model_name d1 hdl h)

/-- C1 witness: loading `"eye"` (missing artifact, so a placeholder) then
loading it again on a different device returns the identical cached handle
with an empty disk-event trace. -/
theorem load_model_idempotent_witness :
    (load_model tfEnv initialState "eye" "cuda").result =
      .ok (some (.placeholder [224, 224, 3] 3)) ∧
    load_model tfEnv (load_model tfEnv initialState "eye" "cuda").state
        "eye" "cpu" =
      { state := (load_model tfEnv initialState "eye" "cuda").state,
        events := [],
        result := .ok (some (.placeholder [224, 224, 3] 3)) } :=
  ⟨by decide,
   load_model_idempotent tfEnv initialState "eye" "cuda" "cpu"
     (some (.placeholder [224, 224, 3] 3)) (by decide)⟩

/-! ### C2 -/

/-- C2 counterexample: the claimed invariant "the cache never holds a null
handle under any name" is false.  One `load_model` call for a checkpoint
(pytorch) descriptor whose artifact file is absent succeeds, returns `None`,
and leaves `None` cached in `loaded_models` under the name. -/
theorem cache_holds_null_after_pytorch_load :
    (load_model ptEnv initialState "m" "cuda").result = .ok none ∧
    alookup (load_model ptEnv initialState "m" "cuda").state.loaded_models
      "m" = some none := by decide

/-- C2 (amended): a handle cached by a `load_model` call that dispatched to
the graph-model (tensorflow) adapter is never null — it is a genuine loaded
artifact or a synthesized placeholder.  (The checkpoint and optimized-session
adapters may cache Python `None` when their artifact file is absent, as the
counterexample shows.) -/
theorem tensorflow_load_caches_ready_handle (env : Env) (st : LoaderState)
    (model_name device : String) (cfg : Config) (hdl : Option ModelHandle)
    (h0 : alookup st.loaded_models model_name = none)
    (hcfg : env.configOf model_name = some cfg)
    (htf : cfg.framework.getD "tensorflow" = "tensorflow")
    (h : (load_model env st model_name device).result = .ok hdl) :
    ∃ m : ModelHandle, hdl = some m ∧
      alookup (load_model env st model_name device).state.loaded_models
        model_name = some (some m) := by
  unfold load_model at h ⊢
  simp only [h0, hcfg, htf, if_true] at h ⊢
  cases hload : loadTensorflowModel env model_name cfg with
  | error e => simp [hload] at h
  | ok pr =>
    obtain ⟨m, evs⟩ := pr
    simp [hload] at h ⊢
    exact ⟨m, h.symm, alookup_upsert_self _ _ _⟩

/-- C2 witness for the amended statement, at the graph-model fixture. -/
theorem tensorflow_load_caches_ready_handle_witness :
    alookup initialState.loaded_models "eye" = none ∧
    tfEnv.configOf "eye" = some tfConfig ∧
    tfConfig.framework.getD "tensorflow" = "tensorflow" ∧
    (load_model tfEnv initialState "eye" "cuda").result =
      .ok (some (.placeholder [224, 224, 3] 3)) ∧
    ∃ m : ModelHandle, (some (.placeholder [224, 224, 3] 3) : Option ModelHandle) = some m ∧
      alookup (load_model tfEnv initialState "eye" "cuda").state.loaded_models
        "eye" = some (some m) :=
  ⟨by decide, by decide, by decide, by decide,
   tensorflow_load_caches_ready_handle tfEnv initialState "eye" "cuda"
     tfConfig (some (.placeholder [224, 224, 3] 3)) (by decide) (by decide)
     (by decide) (by decide)⟩

/-! ### C4 -/

/-- C4 counterexample: an unrecognized framework kind makes `load_model`
fail with `UnsupportedFramework`, but the stored-descriptor side of the
registry cache is NOT left as it was — the descriptor read from disk is
recorded in `configs` before dispatch, so `get_model_info` turns non-empty
even though the load failed. -/
theorem unsupported_framework_stores_descriptor :
    (load_model unknownFwEnv initialState "u" "cuda").result =
      .error (.unsupportedFramework "caffe") ∧
    initialState.configs = [] ∧
    (load_model unknownFwEnv initialState "u" "cuda").state.configs =
      [("u", unknownFwConfig)] ∧
    get_model_info (load_model unknownFwEnv initialState "u" "cuda").state
      "u" = unknownFwConfig := by decide

/-- C4 (amended): for an uncached name whose descriptor declares a framework
kind outside the three recognized ones, `load_model` fails with
`UnsupportedFramework` and leaves the handle mapping exactly as it was, but
the descriptor has been stored in `configs` (a dict write that precedes
framework dispatch). -/
theorem load_unsupported_framework_state (env : Env) (st : LoaderState)
    (model_name device : String) (cfg : Config)
    (h0 : alookup st.loaded_models model_name = none)
    (hcfg : env.configOf model_name = some cfg)
    (htf : cfg.framework.getD "tensorflow" ≠ "tensorflow")
    (hpt : cfg.framework.getD "tensorflow" ≠ "pytorch")
    (honx : cfg.framework.getD "tensorflow" ≠ "onnx") :
    load_model env st model_name device =
      { state := { st with configs := upsert st.configs model_name cfg },
        events := [.configRead model_name],
        result :=
          .error (.unsupportedFramework (cfg.framework.getD "tensorflow")) } := by
  unfold load_model
  simp [h0, hcfg, htf, hpt, honx]

/-- C4 witness for the amended statement, at the `"caffe"` fixture. -/
theorem load_unsupported_framework_state_witness :
    alookup initialState.loaded_models "u" = none ∧
    unknownFwEnv.configOf "u" = some unknownFwConfig ∧
    load_model unknownFwEnv initialState "u" "cuda" =
      { state :=
          { initialState with
            configs := upsert initialState.configs "u" unknownFwConfig },
        events := [.configRead "u"],
        result := .error (.unsupportedFramework "caffe") } :=
  ⟨by decide, by decide,
   load_unsupported_framework_state unknownFwEnv initialState "u" "cuda"
     unknownFwConfig (by decide) (by decide) (by decide) (by decide)
     (by decide)⟩

/-! ### C6 -/

/-- C6 counterexample: `unload_model` does not remove the stored descriptor.
After loading `"eye"` and unloading it, the handle entry is gone but
`get_model_info "eye"` still returns the full (non-empty) descriptor, even
though `"eye"` is not currently loaded. -/
theorem get_model_info_nonempty_after_unload :
    alookup (unload_model (load_model tfEnv initialState "eye" "cuda").state
        "eye").loaded_models "eye" = none ∧
    get_model_info
        (unload_model (load_model tfEnv initialState "eye" "cuda").state
          "eye") "eye" = tfConfig ∧
    tfConfig.isEmpty = false ∧
    tfConfig ≠ emptyConfig := by decide

/-- C6 (amended): `unload_model name` removes the handle cache entry for
`name` if present and is a no-op without error if absent; it touches no other
handle entry and never touches the stored descriptors, so `get_model_info`
returns exactly what it returned before the unload (the stored descriptor,
not an empty structure). -/
theorem unload_model_removes_only_handle (st : LoaderState)
    (model_name : String) :
    alookup (unload_model st model_name).loaded_models model_name = none ∧
    (∀ m, m ≠ model_name →
      alookup (unload_model st model_name).loaded_models m =
        alookup st.loaded_models m) ∧
    (unload_model st model_name).configs = st.configs ∧
    get_model_info (unload_model st model_name) model_name =
      get_model_info st model_name := by
  unfold unload_model
  cases hopt : alookup st.loaded_models model_name with
  | none =>
    simp [get_model_info]
    exact hopt
  | some v =>
    refine ⟨?_, ?_, ?_, ?_⟩
    · simp only [Option.isSome_some, if_true]
      exact alookup_eraseKey_self _ _
    · intro m hm
      simp only [Option.isSome_some, if_true]
      exact alookup_eraseKey_of_ne _ _ _ hm
    · simp
    · simp [get_model_info]

/-- C6 witness for the amended statement, at a state holding one loaded
model, including the frame condition at a different name. -/
theorem unload_model_removes_only_handle_witness :
    alookup (unload_model (load_model tfEnv initialState "eye" "cuda").state
        "eye").loaded_models "eye" = none ∧
    alookup (unload_model (load_model tfEnv initialState "eye" "cuda").state
        "eye").loaded_models "other" =
      alookup (load_model tfEnv initialState "eye" "cuda").state.loaded_models
        "other" ∧
    (unload_model (load_model tfEnv initialState "eye" "cuda").state
        "eye").configs =
      (load_model tfEnv initialState "eye" "cuda").state.configs := by
  have h := unload_model_removes_only_handle
    (load_model tfEnv initialState "eye" "cuda").state "eye"
  exact ⟨h.1, h.2.1 "other" (by decide), h.2.2.1⟩

/-! ### C8 -/

/-- C8: with no cache entry for the name, `predict` fails with
`ModelNotLoaded`; with no stored descriptor for the name, `preprocess_input`
and `postprocess_output` each fail with `ModelNotLoaded`, for every input
tensor and every flag combination. -/
theorem missing_entry_raises_model_not_loaded
    (evalNative : ModelHandle → Tensor → Option Tensor) (st : LoaderState)
    (model_name : String) (t : Tensor) (pre post : Bool) :
    (alookup st.loaded_models model_name = none →
      predict evalNative st model_name t pre post =
        .error (.modelNotLoaded model_name)) ∧
    (alookup st.configs model_name = none →
      preprocess_input st model_name t = .error (.modelNotLoaded model_name) ∧
      postprocess_output st model_name t =
        .error (.modelNotLoaded model_name)) := by
  refine ⟨fun h => ?_, fun h => ⟨?_, ?_⟩⟩
  · unfold predict
    simp [h]
  · unfold preprocess_input
    simp [alookup] at h ⊢
    simp [h]
  · unfold postprocess_output
    simp [h]

/-- C8 witness at the empty loader state. -/
theorem missing_entry_raises_model_not_loaded_witness :
    alookup initialState.loaded_models "x" = none ∧
    alookup initialState.configs "x" = none ∧
    predict noNative initialState "x" ⟨[3], [0, 0, 0]⟩ true true =
      .error (.modelNotLoaded "x") ∧
    preprocess_input initialState "x" ⟨[3], [0, 0, 0]⟩ =
      .error (.modelNotLoaded "x") ∧
    postprocess_output initialState "x" ⟨[3], [0, 0, 0]⟩ =
      .error (.modelNotLoaded "x") := by
  have h := missing_entry_raises_model_not_loaded noNative initialState "x"
    ⟨[3], [0, 0, 0]⟩ true true
  exact ⟨by decide, by decide, h.1 (by decide), (h.2 (by decide)).1,
         (h.2 (by decide)).2⟩


/-! ### Helper lemmas about the processing pipeline -/

/-- With a stored non-empty descriptor whose `preprocessing.normalize` is
falsy, `preprocess_input` only (possibly) inserts the batch dimension. -/
theorem preprocess_input_no_normalize (st : LoaderState) (model_name : String)
    (cfg : Config) (t : Tensor)
    (hc : alookup st.configs model_name = some cfg)
    (hne : cfg.isEmpty = false)
    (hnorm : (cfg.preprocessing.getD emptyPreprocessing).normalize = false) :
    preprocess_input st model_name t =
      .ok (if t.shape.length = 3 then { t with shape := 1 :: t.shape }
           else t) := by
  unfold preprocess_input
  rw [hc]
  simp [hne, hnorm]

/-- Value `postprocess_output` computes once the stored descriptor has been
found and is non-empty (derived description of the success path, used only
to state and prove lemmas about that function). -/
def postprocessPure (cfg : Config) (t : Tensor) : Tensor :=
  let t1 := if t.shape.length = 4 ∧ t.shape.headD 0 = 1
            then { t with shape := t.shape.drop 1 } else t
  match cfg.hyperparameters with
  | some hp =>
    match hp.segmentation_threshold with
    | some thr =>
        { t1 with
          data := t1.data.map (fun x => if thr < x then (1 : ℚ) else 0) }
    | none => t1
  | none => t1

/-- With a stored non-empty descriptor, `postprocess_output` succeeds and
returns exactly the pure postprocessing of the tensor. -/
theorem postprocess_output_eq (st : LoaderState) (model_name : String)
    (cfg : Config) (t : Tensor)
    (hc : alookup st.configs model_name = some cfg)
    (hne : cfg.isEmpty = false) :
    postprocess_output st model_name t = .ok (postprocessPure cfg t) := by
  unfold postprocess_output postprocessPure
  rw [hc]
  simp only [hne, Bool.false_eq_true, if_false]
  cases cfg.hyperparameters with
  | none => rfl
  | some hp =>
    obtain ⟨sthr⟩ := hp
    cases sthr with
    | none => rfl
    | some thr => rfl

/-- Postprocessing strips a leading batch dimension of size 1 (when 4-D)
and otherwise keeps the shape; thresholding never changes the shape. -/
theorem postprocessPure_shape (cfg : Config) (t : Tensor) :
    (postprocessPure cfg t).shape =
      (if t.shape.length = 4 ∧ t.shape.headD 0 = 1 then t.shape.drop 1
       else t.shape) := by
  unfold postprocessPure
  cases cfg.hyperparameters with
  | none => split <;> rfl
  | some hp =>
    obtain ⟨sthr⟩ := hp
    cases sthr with
    | none => split <;> rfl
    | some thr => split <;> rfl

/-- With a stored non-empty descriptor, `postprocess_output` succeeds and
returns a tensor whose shape is the input's shape with a leading batch
dimension of size 1 stripped (when 4-D). -/
theorem postprocess_output_shape (st : LoaderState) (model_name : String)
    (cfg : Config) (t : Tensor)
    (hc : alookup st.configs model_name = some cfg)
    (hne : cfg.isEmpty = false) :
    ∃ out : Tensor, postprocess_output st model_name t = .ok out ∧
      out.shape = (if t.shape.length = 4 ∧ t.shape.headD 0 = 1
                   then t.shape.drop 1 else t.shape) :=
  ⟨postprocessPure cfg t, postprocess_output_eq st model_name cfg t hc hne,
   postprocessPure_shape cfg t⟩

/-! ### C3 -/

/-- C3 counterexample: a graph-model (tensorflow) descriptor with a missing
artifact does not always produce a placeholder.  With `output_shape = [1]`,
stripping the batch dimension leaves an empty list, `output_shape[-1]`
raises inside `_create_placeholder_model` (both in the missing-file branch
and again in the `except` handler), and `load_model` fails instead of
succeeding. -/
theorem tensorflow_missing_artifact_can_fail :
    degenerateConfig.framework = some "tensorflow" ∧
    degenerateEnv.artifactExists "b" "model.h5" = false ∧
    (load_model degenerateEnv initialState "b" "cuda").result =
      .error .placeholderCreationFailed := by decide

/-- C3 (amended): for every uncached model whose descriptor declares the
tensorflow framework, carries a `model_files` mapping, and whose declared
shapes admit the placeholder construction (`createPlaceholderModel`
succeeds; shapes defaulting to `[1,224,224,3]` always qualify), an absent
artifact file — or a framework-native load failure on a present one — never
propagates: the adapter returns the synthesized placeholder handle and
`load_model` succeeds with it.  (When the stripped `output_shape` is empty
the placeholder synthesis itself raises and `load_model` fails, as the
counterexample records.) -/
theorem tensorflow_artifact_failure_falls_back_to_placeholder
    (env : Env) (st : LoaderState) (model_name device : String)
    (cfg : Config) (mf : List (String × String)) (p : ModelHandle)
    (h0 : alookup st.loaded_models model_name = none)
    (hcfg : env.configOf model_name = some cfg)
    (htf : cfg.framework.getD "tensorflow" = "tensorflow")
    (hmf : cfg.model_files = some mf)
    (hp : createPlaceholderModel cfg = some p)
    (hfail :
      env.artifactExists model_name (mfGet mf "full_model" "model.h5") = false ∨
      env.nativeLoadOk model_name (mfGet mf "full_model" "model.h5") = false) :
    (load_model env st model_name device).result = .ok (some p) ∧
    ∃ inS c, p = .placeholder inS c := by
  have hadapter : ∃ evs, loadTensorflowModel env model_name cfg = .ok (p, evs) := by
    unfold loadTensorflowModel
    rw [hmf]
    by_cases hex :
        env.artifactExists model_name (mfGet mf "full_model" "model.h5") = true
    · have hnok :
          env.nativeLoadOk model_name (mfGet mf "full_model" "model.h5") = false := by
        rcases hfail with h1 | h1
        · rw [hex] at h1
          cases h1
        · exact h1
      refine ⟨[.artifactStat model_name (mfGet mf "full_model" "model.h5"),
               .artifactRead model_name (mfGet mf "full_model" "model.h5")],
              ?_⟩
      simp [hex, hnok, hp]
    · have hex2 :
          env.artifactExists model_name (mfGet mf "full_model" "model.h5") = false := by
        simpa using hex
      refine ⟨[.artifactStat model_name (mfGet mf "full_model" "model.h5")],
              ?_⟩
      simp [hex2, hp]
  obtain ⟨evs, hadapter⟩ := hadapter
  constructor
  · unfold load_model
    simp [h0, hcfg, htf, hadapter]
  · simp only [createPlaceholderModel] at hp
    split at hp
    · simp at hp
    · split at hp
      · exact ⟨_, _, (Option.some.inj hp).symm⟩
      · simp at hp

/-- C3 witness at the `224×224×3` fixture with the artifact absent. -/
theorem tensorflow_artifact_failure_falls_back_to_placeholder_witness :
    createPlaceholderModel tfConfig = some (.placeholder [224, 224, 3] 3) ∧
    tfEnv.artifactExists "eye" (mfGet [] "full_model" "model.h5") = false ∧
    (load_model tfEnv initialState "eye" "cuda").result =
      .ok (some (.placeholder [224, 224, 3] 3)) ∧
    ∃ inS c,
      (ModelHandle.placeholder [224, 224, 3] 3) = .placeholder inS c :=
  ⟨by decide, by decide,
   (tensorflow_artifact_failure_falls_back_to_placeholder tfEnv initialState
     "eye" "cuda" tfConfig [] (.placeholder [224, 224, 3] 3) (by decide)
     (by decide) (by decide) (by decide) (by decide) (.inl (by decide))).1,
   (tensorflow_artifact_failure_falls_back_to_placeholder tfEnv initialState
     "eye" "cuda" tfConfig [] (.placeholder [224, 224, 3] 3) (by decide)
     (by decide) (by decide) (by decide) (by decide) (.inl (by decide))).2⟩

/-! ### C5 -/

/-- C5 counterexample: the synthesized placeholder does not map a tensor of
the declared `input_shape` to one of the declared `output_shape` in general:
the `Conv2D` keeps the input's spatial dimensions and only sets the channel
count.  With `input_shape=[1,8,8,3]`, `output_shape=[1,4,4,1]` and a missing
artifact, `predict` on an `8×8×3` input returns an `8×8×1` tensor, not the
declared `4×4×1`. -/
theorem placeholder_keeps_input_spatial_dims :
    (load_model smallEnv initialState "s" "cuda").result =
      .ok (some (.placeholder [8, 8, 3] 1)) ∧
    predict noNative (load_model smallEnv initialState "s" "cuda").state "s"
        ⟨[8, 8, 3], List.replicate 192 0⟩ true true =
      .ok ⟨[8, 8, 1], List.replicate 64 (1/2)⟩ ∧
    (smallConfig.output_shape.getD []).drop 1 = [4, 4, 1] ∧
    ([8, 8, 1] : List Nat) ≠ [4, 4, 1] := by
  refine ⟨by decide, ?_, by decide, by decide⟩
  rfl

/-- C5 (amended): after loading a tensorflow-framework descriptor with a
missing artifact (so a placeholder is synthesized), `predict` on a tensor of
the declared per-sample input shape `inS` succeeds and returns a tensor of
shape `inS.dropLast ++ [output_shape[-1]]`: the input's spatial dimensions
with the declared output channel count, the batch dimension inserted by
preprocessing and stripped again by postprocessing.  Exactly when the
declared input and output shapes agree on the spatial dimensions — as in the
`[1,224,224,3] → [1,224,224,3]` example — this equals the declared
`output_shape` with the batch dimension stripped. -/
theorem predict_placeholder_shape (env : Env) (st : LoaderState)
    (model_name device : String) (cfg : Config) (mf : List (String × String))
    (inS : List Nat) (c : Nat) (t : Tensor)
    (evalNative : ModelHandle → Tensor → Option Tensor)
    (h0 : alookup st.loaded_models model_name = none)
    (hcfg : env.configOf model_name = some cfg)
    (hne : cfg.isEmpty = false)
    (htf : cfg.framework.getD "tensorflow" = "tensorflow")
    (hmf : cfg.model_files = some mf)
    (hmiss :
      env.artifactExists model_name (mfGet mf "full_model" "model.h5") = false)
    (hin : (cfg.input_shape.getD [1, 224, 224, 3]).drop 1 = inS)
    (hlen : inS.length = 3)
    (hout : ((cfg.output_shape.getD [1, 224, 224, 3]).drop 1).getLast? = some c)
    (hshape : t.shape = inS)
    (hnorm : (cfg.preprocessing.getD emptyPreprocessing).normalize = false) :
    ∃ out : Tensor,
      predict evalNative (load_model env st model_name device).state
        model_name t true true = .ok out ∧
      out.shape = inS.dropLast ++ [c] := by
  obtain ⟨a, b, c0, hnil⟩ := List.length_eq_three.mp hlen
  subst hnil
  obtain ⟨tsh, tdata⟩ := t
  change tsh = [a, b, c0] at hshape
  subst hshape
  have hp : createPlaceholderModel cfg = some (.placeholder [a, b, c0] c) := by
    simp only [createPlaceholderModel]
    rw [hout, hin]
    exact rfl
  have hadapter : loadTensorflowModel env model_name cfg =
      .ok (.placeholder [a, b, c0] c,
           [.artifactStat model_name (mfGet mf "full_model" "model.h5")]) := by
    unfold loadTensorflowModel
    rw [hmf]
    simp [hmiss, hp]
  have hstate : (load_model env st model_name device).state =
      { loaded_models :=
          upsert st.loaded_models model_name
            (some (.placeholder [a, b, c0] c)),
        configs := upsert st.configs model_name cfg } := by
    unfold load_model
    simp [h0, hcfg, htf, hadapter]
  rw [hstate]
  have hcfg2 : alookup (upsert st.configs model_name cfg) model_name =
      some cfg := alookup_upsert_self _ _ _
  have hlook : alookup
      (upsert st.loaded_models model_name
        (some (.placeholder [a, b, c0] c))) model_name =
      some (some (.placeholder [a, b, c0] c)) := alookup_upsert_self _ _ _
  have hpre := preprocess_input_no_normalize
    { loaded_models :=
        upsert st.loaded_models model_name (some (.placeholder [a, b, c0] c)),
      configs := upsert st.configs model_name cfg } model_name cfg
    ⟨[a, b, c0], tdata⟩ hcfg2 hne hnorm
  have hpre2 : preprocess_input
      { loaded_models :=
          upsert st.loaded_models model_name
            (some (.placeholder [a, b, c0] c)),
        configs := upsert st.configs model_name cfg } model_name
      ⟨[a, b, c0], tdata⟩ = .ok ⟨1 :: [a, b, c0], tdata⟩ := by
    rw [hpre]
    exact rfl
  have hplace2 : handlePredict evalNative (.placeholder [a, b, c0] c)
      ⟨1 :: [a, b, c0], tdata⟩ =
      some ⟨[1, a, b, c],
            List.replicate ([1, a, b, c] : List Nat).prod (1/2)⟩ := by
    show placeholderPredict [a, b, c0] c ⟨1 :: [a, b, c0], tdata⟩ = _
    unfold placeholderPredict
    rw [if_pos ⟨rfl, rfl⟩]
    exact rfl
  have hpost := postprocess_output_eq
    { loaded_models :=
        upsert st.loaded_models model_name (some (.placeholder [a, b, c0] c)),
      configs := upsert st.configs model_name cfg } model_name cfg
    ⟨[1, a, b, c], List.replicate ([1, a, b, c] : List Nat).prod (1/2)⟩
    hcfg2 hne
  refine ⟨postprocessPure cfg
    ⟨[1, a, b, c], List.replicate ([1, a, b, c] : List Nat).prod (1/2)⟩,
    ?_, ?_⟩
  · unfold predict
    simp only [hlook, hpre2, hplace2, hpost, reduceIte]
  · rw [postprocessPure_shape]
    rw [if_pos ⟨rfl, rfl⟩]
    exact rfl

/-- C5 witness at the `[1,224,224,3] → [1,224,224,3]` fixture: the predicted
shape `[224,224] ++ [3]` is the declared output shape with the batch
dimension stripped. -/
theorem predict_placeholder_shape_witness :
    (tfConfig.input_shape.getD [1, 224, 224, 3]).drop 1 = [224, 224, 3] ∧
    ((tfConfig.output_shape.getD [1, 224, 224, 3]).drop 1).getLast? = some 3 ∧
    (∃ out : Tensor,
      predict noNative (load_model tfEnv initialState "eye" "cuda").state
        "eye" ⟨[224, 224, 3], []⟩ true true = .ok out ∧
      out.shape = ([224, 224, 3] : List Nat).dropLast ++ [3]) ∧
    ([224, 224, 3] : List Nat).dropLast ++ [3] =
      (tfConfig.output_shape.getD []).drop 1 :=
  ⟨by decide, by decide,
   predict_placeholder_shape tfEnv initialState "eye" "cuda" tfConfig []
     [224, 224, 3] 3 ⟨[224, 224, 3], []⟩ noNative (by decide) (by decide)
     (by decide) (by decide) (by decide) (by decide) (by decide) (by decide)
     (by decide) (by decide) (by decide),
   by decide⟩

/-! ### C7 -/

/-- C7: the spec's resize contract fails on the code — the operative resize
call in `preprocess_input` is commented out, so the branch reads the target
and does nothing.  At the failing input (descriptor with
`preprocessing.resize = [1, 1]`, a `2×2×3` input tensor) the result keeps
spatial dimensions `2×2` (only the batch dimension is inserted) instead of
the claimed `1×1`. -/
theorem preprocess_resize_is_noop :
    (resizeConfig.preprocessing.getD emptyPreprocessing).resize =
      some [1, 1] ∧
    preprocess_input resizeState "r" ⟨[2, 2, 3], List.replicate 12 0⟩ =
      .ok ⟨[1, 2, 2, 3], List.replicate 12 0⟩ ∧
    ([1, 2, 2, 3] : List Nat) ≠ [1, 1, 1, 3] := by decide

/-! ### C9 -/

/-- C9: threshold binarization is a strict greater-than comparison.  For a
stored non-empty descriptor with `hyperparameters.segmentation_threshold`
equal to `thr`, `postprocess_output` maps every element `x` of the (batch-
stripped) output tensor to `1` if `x > thr` and to `0` otherwise; an element
exactly equal to `thr` becomes `0`. -/
theorem postprocess_threshold_strict (st : LoaderState) (model_name : String)
    (cfg : Config) (hp : Hyperparameters) (thr : ℚ) (t : Tensor)
    (hc : alookup st.configs model_name = some cfg)
    (hne : cfg.isEmpty = false)
    (hhp : cfg.hyperparameters = some hp)
    (hthr : hp.segmentation_threshold = some thr) :
    postprocess_output st model_name t =
      .ok { shape := (if t.shape.length = 4 ∧ t.shape.headD 0 = 1
                      then t.shape.drop 1 else t.shape),
            data := t.data.map (fun x => if thr < x then (1 : ℚ) else 0) } := by
  rw [postprocess_output_eq st model_name cfg t hc hne]
  unfold postprocessPure
  simp only [hhp, hthr]
  by_cases hcond : t.shape.length = 4 ∧ t.shape.headD 0 = 1
  · rw [if_pos hcond, if_pos hcond]
  · rw [if_neg hcond, if_neg hcond]

/-- C9 witness: with threshold `0.5`, the output `[0.3, 0.7, 0.5]` becomes
`[0, 1, 0]` — the element equal to the threshold maps to `0`. -/
theorem postprocess_threshold_strict_witness :
    alookup thrState.configs "t" = some thrConfig ∧
    thrConfig.hyperparameters = some ⟨some (1/2)⟩ ∧
    postprocess_output thrState "t" ⟨[3], [3/10, 7/10, 1/2]⟩ =
      .ok ⟨[3], [0, 1, 0]⟩ := by
  refine ⟨rfl, rfl, ?_⟩
  rw [postprocess_threshold_strict thrState "t" thrConfig ⟨some (1/2)⟩ (1/2)
    ⟨[3], [3/10, 7/10, 1/2]⟩ rfl rfl rfl rfl]
  norm_num

/-! ### C10 -/

/-- C10: for an uncached name whose descriptor declares the checkpoint
(pytorch) or optimized-session (onnx) framework, with the runtime installed,
a `model_files` mapping present and the artifact file absent, `load_model`
completes without error but caches Python `None` under the name; thereafter
every `predict` for that name raises `ModelNotLoaded` even though the name
is cached, and every further `load_model` returns the cached `None` with no
disk access. -/
theorem missing_artifact_caches_null (env : Env) (st : LoaderState)
    (model_name device : String) (cfg : Config) (mf : List (String × String))
    (h0 : alookup st.loaded_models model_name = none)
    (hcfg : env.configOf model_name = some cfg)
    (hmf : cfg.model_files = some mf)
    (hcase :
      (cfg.framework.getD "tensorflow" = "pytorch" ∧
        env.torchInstalled = true ∧
        env.artifactExists model_name (mfGet mf "weights" "model.pth") =
          false) ∨
      (cfg.framework.getD "tensorflow" = "onnx" ∧
        env.onnxInstalled = true ∧
        env.artifactExists model_name (mfGet mf "onnx" "model.onnx") =
          false)) :
    (load_model env st model_name device).result = .ok none ∧
    alookup (load_model env st model_name device).state.loaded_models
      model_name = some none ∧
    (∀ (evalNative : ModelHandle → Tensor → Option Tensor) (t : Tensor)
        (pre post : Bool),
      predict evalNative (load_model env st model_name device).state
        model_name t pre post = .error (.modelNotLoaded model_name)) ∧
    (∀ d2 : String,
      load_model env (load_model env st model_name device).state model_name
        d2 =
      { state := (load_model env st model_name device).state, events := [],
        result := .ok none }) := by
  have hload : ∃ evs,
      load_model env st model_name device =
        { state :=
            { loaded_models := upsert st.loaded_models model_name none,
              configs := upsert st.configs model_name cfg },
          events := evs, result := .ok none } := by
    rcases hcase with ⟨hfw, hrt, hmiss⟩ | ⟨hfw, hrt, hmiss⟩
    · have hadapter : loadPytorchModel env model_name cfg =
          .ok (none,
               [.artifactStat model_name (mfGet mf "weights" "model.pth")]) := by
        unfold loadPytorchModel
        rw [hrt, hmf]
        simp [hmiss]
      refine ⟨[DiskEvent.configRead model_name,
               DiskEvent.artifactStat model_name
                 (mfGet mf "weights" "model.pth")], ?_⟩
      unfold load_model
      simp [h0, hcfg, hfw, hadapter]
    · have hadapter : loadOnnxModel env model_name cfg =
          .ok (none,
               [.artifactStat model_name (mfGet mf "onnx" "model.onnx")]) := by
        unfold loadOnnxModel
        rw [hrt, hmf]
        simp [hmiss]
      refine ⟨[DiskEvent.configRead model_name,
               DiskEvent.artifactStat model_name
                 (mfGet mf "onnx" "model.onnx")], ?_⟩
      unfold load_model
      simp [h0, hcfg, hfw, hadapter]
  obtain ⟨evs, hload⟩ := hload
  rw [hload]
  refine ⟨rfl, alookup_upsert_self _ _ _, ?_, ?_⟩
  · intro evalNative t pre post
    unfold predict
    rw [alookup_upsert_self]
  · intro d2
    exact load_model_cached env _ model_name d2 none
      (alookup_upsert_self _ _ _)

/-- C10 witness at the pytorch fixture with a missing `model.pth`. -/
theorem missing_artifact_caches_null_witness :
    alookup initialState.loaded_models "m" = none ∧
    ptEnv.configOf "m" = some ptConfig ∧
    ptConfig.model_files = some [] ∧
    (load_model ptEnv initialState "m" "cuda").result = .ok none ∧
    alookup (load_model ptEnv initialState "m" "cuda").state.loaded_models
      "m" = some none ∧
    predict noNative (load_model ptEnv initialState "m" "cuda").state "m"
      ⟨[3], [0, 0, 0]⟩ true true = .error (.modelNotLoaded "m") ∧
    load_model ptEnv (load_model ptEnv initialState "m" "cuda").state "m"
        "cpu" =
      { state := (load_model ptEnv initialState "m" "cuda").state,
        events := [], result := .ok none } := by
  have h := missing_artifact_caches_null ptEnv initialState "m" "cuda"
    ptConfig [] (by decide) (by decide) (by decide)
    (.inl ⟨by decide, by decide, by decide⟩)
  exact ⟨by decide, by decide, by decide, h.1, h.2.1,
         h.2.2.1 noNative ⟨[3], [0, 0, 0]⟩ true true, h.2.2.2 "cpu"⟩

end MLoader
